import Mathlib

/-!
Shallow embedding of `tellophone.go`: a handheld quadcopter controller that
maps touch and accelerometer events to normalized flight commands.

Float64 arithmetic in the Go source is modelled exactly: accelerometer and
touch samples are rationals (every float is a rational), and the
trigonometric tilt math is carried out over the reals.  Go's float-to-int16
conversion truncates toward zero, modelled by `ratTrunc` / `realTrunc`.
The event handlers become pure state-transition functions returning the new
application state together with the list of drone SDK calls they issue.
-/

namespace Tellophone

/-- Truncation of a rational toward zero, the semantics of Go's
float64-to-integer conversion (`int16(x)` for in-range `x`). -/
def ratTrunc (q : ℚ) : ℤ :=
  if 0 ≤ q then ⌊q⌋ else ⌈q⌉

/-- Truncation of a real toward zero (same conversion, over the reals). -/
noncomputable def realTrunc (r : ℝ) : ℤ :=
  if 0 ≤ r then ⌊r⌋ else ⌈r⌉

/-- `math.MaxInt16` from the Go standard library. -/
def maxInt16 : ℤ := 32767

/-- `telloParam` from tellophone.go:
`int16(math.MaxInt16 * math.Max(-1.0, (math.Min(1.0, val))))`. -/
def telloParam (val : ℚ) : ℤ :=
  ratTrunc ((maxInt16 : ℚ) * max (-1) (min 1 val))

/-- Modelled from the spec: the wording `round(clamp(value, -1, 1) * scaleFactor)`
with `scaleFactor = MaxInt16`, using rounding rather than the truncation the
Go conversion performs.  Kept only to compare with `telloParam`. -/
def telloParamSpecRound (val : ℚ) : ℤ :=
  round (max (-1) (min 1 val) * (maxInt16 : ℚ))

/-- Modelled from the spec: `clamp(value, -1, 1) * scaleFactor` followed by
truncation toward zero, i.e. the spec's formula with `round` repaired to the
truncation Go's conversion performs. -/
def telloParamSpecTrunc (val : ℚ) : ℤ :=
  ratTrunc (max (-1) (min 1 val) * (maxInt16 : ℚ))

/-- `telloParam` over the reals, used when encoding the real-valued tilt axes. -/
noncomputable def telloParamR (val : ℝ) : ℤ :=
  realTrunc ((maxInt16 : ℝ) * max (-1) (min 1 val))

/-! ## Touch mapping (onTouch, lines 96-104) -/

/-- The yaw command computed by `onTouch` for a touch at horizontal pixel `X`
on a viewport `widthPx` pixels wide: `2.0*float64(evt.X)/float64(appSize.WidthPx-1) - 1.0`. -/
def touchYaw (widthPx : ℤ) (X : ℚ) : ℚ :=
  2 * X / ((widthPx : ℚ) - 1) - 1

/-- The lateral-throttle command computed by `onTouch` for a touch at vertical
pixel `Y`: `-(2.0*float64(evt.Y)/float64(appSize.HeightPx-1) - 1.0)`. -/
def touchThrottle (heightPx : ℤ) (Y : ℚ) : ℚ :=
  -(2 * Y / ((heightPx : ℚ) - 1) - 1)

/-! ## Accelerometer tilt math (onSensor, lines 116-124) -/

/-- The roll angle of `onSensor`: `atan(accel.y / hyp)` for
`hyp = sqrt(accel.x*accel.x + accel.z*accel.z)` when `hyp != 0`, else `0`. -/
noncomputable def rollAngle (x y z : ℝ) : ℝ :=
  if Real.sqrt (x * x + z * z) ≠ 0 then Real.arctan (y / Real.sqrt (x * x + z * z)) else 0

/-- The pitch angle of `onSensor`: `atan(accel.x / hyp)` for
`hyp = sqrt(accel.y*accel.y + accel.z*accel.z)` when `hyp != 0`, else `0`. -/
noncomputable def pitchAngle (x y z : ℝ) : ℝ :=
  if Real.sqrt (y * y + z * z) ≠ 0 then Real.arctan (x / Real.sqrt (y * y + z * z)) else 0

/-- The takeoff/land gesture condition of `onSensor`, line 111:
`math.Abs(accel.z/9.8-1.0) > 3.0`. -/
def gestureTrigger (z : ℚ) : Bool :=
  decide (|z / (98 / 10) - 1| > 3)

/-! ## Application state and event handlers -/

/-- The `coord` struct of tellophone.go (used for `velocity`). -/
structure Coord where
  x : ℝ
  y : ℝ
  z : ℝ

/-- The fields of `tello.FlightData` that tellophone.go reads. -/
structure FlightData where
  flying : Bool
  batteryLow : Bool
  batteryCritical : Bool

/-- The mutable globals of tellophone.go that the event handlers touch:
viewport size (`appSize`), command vector (`velocity`, `yawVelocity`) and the
last polled drone telemetry (`flightData`). -/
structure AppState where
  widthPx : ℤ
  heightPx : ℤ
  velocity : Coord
  yawVelocity : ℝ
  flightData : FlightData

/-- One accelerometer sample (`evt.Data[0..2]`), a float64 triple. -/
structure AccelSample where
  x : ℚ
  y : ℚ
  z : ℚ

/-- The calls tellophone.go makes into the `tello` drone SDK. -/
inductive DroneCall where
  | hover : DroneCall
  | land : DroneCall
  | takeOff : DroneCall
  | updateSticks : ℤ → ℤ → ℤ → ℤ → DroneCall

/-- The `touch.Event` types distinguished by `onTouch`. -/
inductive TouchType where
  | typeBegin : TouchType
  | typeMove : TouchType
  | typeEnd : TouchType
  deriving DecidableEq

/-- `updateCtrl`: sends one `StickMessage` with
`Rx = velocity.x, Ry = velocity.y, Lx = yawVelocity, Ly = velocity.z`,
each encoded through `telloParam`. -/
noncomputable def updateCtrl (s : AppState) : List DroneCall :=
  [DroneCall.updateSticks (telloParamR s.velocity.x) (telloParamR s.velocity.y)
    (telloParamR s.yawVelocity) (telloParamR s.velocity.z)]

/-- `resetCtrl`: zeroes `velocity` and `yawVelocity`, then calls `drone.Hover()`. -/
def resetCtrl (s : AppState) : AppState × List DroneCall :=
  ({ s with velocity := ⟨0, 0, 0⟩, yawVelocity := 0 }, [DroneCall.hover])

/-- `takeoffLand`: `resetCtrl()`, then `drone.Land()` if `flightData.Flying`
else `drone.TakeOff()`.  The local flight data is not modified. -/
def takeoffLand (s : AppState) : AppState × List DroneCall :=
  let r := resetCtrl s
  (r.1, r.2 ++ [if r.1.flightData.flying then DroneCall.land else DroneCall.takeOff])

/-- `onTouch`: on `TypeEnd` or a degenerate viewport, zero `velocity.z` and
`yawVelocity`; otherwise map the touch position linearly; then `updateCtrl()`. -/
noncomputable def onTouch (s : AppState) (t : TouchType) (X Y : ℚ) :
    AppState × List DroneCall :=
  let s1 : AppState :=
    if t = TouchType.typeEnd ∨ s.widthPx < 2 ∨ s.heightPx < 2 then
      { s with velocity := { s.velocity with z := 0 }, yawVelocity := 0 }
    else
      { s with
          yawVelocity := (touchYaw s.widthPx X : ℝ),
          velocity := { s.velocity with z := (touchThrottle s.heightPx Y : ℝ) } }
  (s1, updateCtrl s1)

/-- `onSensor` on an accelerometer event: if the gesture condition holds,
`takeoffLand()` and return; otherwise derive normalized roll and pitch from
the tilt angles, `updateCtrl()`, and refresh `flightData` from
`drone.GetFlightData()` (whose reading is the parameter `fd`). -/
noncomputable def onSensor (s : AppState) (a : AccelSample) (fd : FlightData) :
    AppState × List DroneCall :=
  if gestureTrigger a.z then takeoffLand s
  else
    let roll : ℝ := rollAngle (a.x : ℝ) (a.y : ℝ) (a.z : ℝ)
    let pitch : ℝ := pitchAngle (a.x : ℝ) (a.y : ℝ) (a.z : ℝ)
    let s1 : AppState :=
      { s with velocity := { s.velocity with
          x := roll / (0.5 * Real.pi),
          y := -pitch / (0.5 * Real.pi) } }
    ({ s1 with flightData := fd }, updateCtrl s1)

/-- Folds `onSensor` over a list of accelerometer samples paired with the
telemetry `GetFlightData` would return, concatenating the SDK call traces. -/
noncomputable def runSensors (s : AppState) :
    List (AccelSample × FlightData) → AppState × List DroneCall
  | [] => (s, [])
  | e :: rest =>
    let r := onSensor s e.1 e.2
    let rr := runSensors r.1 rest
    (rr.1, r.2 ++ rr.2)

/-- A drone call that toggles the flight state (TakeOff or Land). -/
def isToggle : DroneCall → Bool
  | DroneCall.land => true
  | DroneCall.takeOff => true
  | _ => false

/-- Number of flight-state toggles (TakeOff/Land calls) in an SDK call trace. -/
def toggleCount (calls : List DroneCall) : ℕ :=
  (calls.filter isToggle).length

/-- A concrete grounded initial state on a 100 by 100 viewport. -/
def s0 : AppState :=
  { widthPx := 100, heightPx := 100, velocity := ⟨0, 0, 0⟩, yawVelocity := 0,
    flightData := { flying := false, batteryLow := false, batteryCritical := false } }

/-- Telemetry reporting the drone airborne. -/
def fdFlying : FlightData :=
  { flying := true, batteryLow := false, batteryCritical := false }

/-- Telemetry reporting the drone grounded. -/
def fdGround : FlightData :=
  { flying := false, batteryLow := false, batteryCritical := false }

/-- A concrete state whose viewport is a single pixel column. -/
def sNarrow : AppState :=
  { widthPx := 1, heightPx := 100, velocity := ⟨0, 0, 0⟩, yawVelocity := 0,
    flightData := { flying := false, batteryLow := false, batteryCritical := false } }

/-! ## Helper lemmas -/

lemma gestureTrigger_iff (z : ℚ) : gestureTrigger z = true ↔ |z / (98 / 10) - 1| > 3 := by
  simp [gestureTrigger]

lemma gestureTrigger_gravity : gestureTrigger (98 / 10) = false := by
  norm_num [gestureTrigger]

lemma gestureTrigger_forty : gestureTrigger 40 = true := by
  norm_num [gestureTrigger, abs_of_nonneg]

lemma toggleCount_append (l1 l2 : List DroneCall) :
    toggleCount (l1 ++ l2) = toggleCount l1 + toggleCount l2 := by
  simp [toggleCount, List.filter_append]

lemma toggleCount_takeoffLand (s : AppState) :
    toggleCount (takeoffLand s).2 = 1 := by
  cases h : s.flightData.flying <;>
    simp [takeoffLand, resetCtrl, toggleCount, isToggle, h]

lemma toggleCount_onSensor (s : AppState) (a : AccelSample) (fd : FlightData) :
    toggleCount (onSensor s a fd).2 = if gestureTrigger a.z then 1 else 0 := by
  by_cases h : gestureTrigger a.z
  · simp [onSensor, h, toggleCount_takeoffLand]
  · simp [onSensor, h, updateCtrl, toggleCount, isToggle]

lemma abs_rollAngle_lt (x y z : ℝ) : |rollAngle x y z| < Real.pi / 2 := by
  unfold rollAngle
  split
  · exact abs_lt.mpr ⟨Real.neg_pi_div_two_lt_arctan _, Real.arctan_lt_pi_div_two _⟩
  · simpa using Real.pi_div_two_pos

lemma abs_pitchAngle_lt (x y z : ℝ) : |pitchAngle x y z| < Real.pi / 2 := by
  unfold pitchAngle
  split
  · exact abs_lt.mpr ⟨Real.neg_pi_div_two_lt_arctan _, Real.arctan_lt_pi_div_two _⟩
  · simpa using Real.pi_div_two_pos

lemma abs_div_halfPi_lt_one {r : ℝ} (h : |r| < Real.pi / 2) :
    |r / (0.5 * Real.pi)| < 1 := by
  have hpos : (0 : ℝ) < 0.5 * Real.pi := by positivity
  rw [abs_div, abs_of_pos hpos, div_lt_one hpos]
  calc |r| < Real.pi / 2 := h
    _ = 0.5 * Real.pi := by ring

lemma onSensor_velocity (s : AppState) (a : AccelSample) (fd : FlightData)
    (h : gestureTrigger a.z = false) :
    (onSensor s a fd).1.velocity.x =
      rollAngle (a.x : ℝ) (a.y : ℝ) (a.z : ℝ) / (0.5 * Real.pi) ∧
    (onSensor s a fd).1.velocity.y =
      -pitchAngle (a.x : ℝ) (a.y : ℝ) (a.z : ℝ) / (0.5 * Real.pi) := by
  simp [onSensor, h]

/-! ## Claim theorems -/

/-- C2 counterexample: the claim says `telloParam` rounds the clamped, scaled
value, but Go's `int16(...)` conversion truncates: at input `0.5` the code
yields `16383` while `round(0.5 * 32767) = round(16383.5) = 16384`. -/
theorem C2_counterexample :
    telloParam (1/2) = 16383 ∧ telloParamSpecRound (1/2) = 16384 ∧
    telloParam (1/2) ≠ telloParamSpecRound (1/2) := by
  refine ⟨?_, ?_, ?_⟩
  · norm_num [telloParam, ratTrunc, maxInt16]
  · norm_num [telloParamSpecRound, maxInt16, round_eq]
  · norm_num [telloParam, telloParamSpecRound, ratTrunc, maxInt16, round_eq]

/-- C2 (amended): for every input, `telloParam` equals the spec's
`clamp(value, -1, 1) * scaleFactor` mapping with truncation toward zero
(Go's float-to-int conversion) in place of rounding; in particular
`telloParam 1 = 32767` (the maximum positive magnitude of the symmetric
encoding), `telloParam (-1) = -32767` (the maximum negative magnitude),
and `telloParam 0 = 0`. -/
theorem C2_telloParam_trunc :
    (∀ val : ℚ, telloParam val = telloParamSpecTrunc val) ∧
    telloParam 1 = 32767 ∧ telloParam (-1) = -32767 ∧ telloParam 0 = 0 := by
  refine ⟨fun val => ?_, ?_, ?_, ?_⟩
  · unfold telloParam telloParamSpecTrunc
    rw [mul_comm]
  · norm_num [telloParam, ratTrunc, maxInt16]
  · norm_num [telloParam, ratTrunc, maxInt16]
    rw [show ((-32767 : ℚ)) = ((-32767 : ℤ) : ℚ) by norm_num, Int.ceil_intCast]
  · norm_num [telloParam, ratTrunc, maxInt16]

/-- C5: an accelerometer sample produces a flight-state toggle call if and
only if `|accel.z / 9.8 - 1| > 3`; the gravity-only reading `z = 9.8` does
not trigger the gesture, while `z = 40` does. -/
theorem C5_trigger_iff :
    (∀ (s : AppState) (a : AccelSample) (fd : FlightData),
        toggleCount (onSensor s a fd).2 = 1 ↔ |a.z / (98 / 10) - 1| > 3) ∧
    gestureTrigger (98 / 10) = false ∧ gestureTrigger 40 = true := by
  refine ⟨fun s a fd => ?_, gestureTrigger_gravity, gestureTrigger_forty⟩
  rw [toggleCount_onSensor, ← gestureTrigger_iff]
  by_cases h : gestureTrigger a.z <;> simp [h]

/-- C6: `takeoffLand` zeroes all four control axes (roll, pitch, yaw,
throttle), and the SDK calls it issues are `Hover` (from `resetCtrl`)
followed by `Land` when the flight data says flying and `TakeOff`
otherwise; a triggering sensor event does exactly this. -/
theorem C6_takeoffLand (s : AppState) :
    (takeoffLand s).1.velocity.x = 0 ∧ (takeoffLand s).1.velocity.y = 0 ∧
    (takeoffLand s).1.velocity.z = 0 ∧ (takeoffLand s).1.yawVelocity = 0 ∧
    (takeoffLand s).2 =
      [DroneCall.hover,
        if s.flightData.flying then DroneCall.land else DroneCall.takeOff] ∧
    (∀ (a : AccelSample) (fd : FlightData),
        gestureTrigger a.z = true → onSensor s a fd = takeoffLand s) := by
  refine ⟨rfl, rfl, rfl, rfl, ?_, fun a fd h => ?_⟩
  · simp [takeoffLand, resetCtrl]
  · simp [onSensor, h]

/-- C7 counterexample: the flight-state value read by the renderer and the
dispatcher (`flightData`) changes without any accepted gesture: a
non-triggering gravity-only sample refreshes it from drone telemetry, here
flipping `flying` from `false` to `true` while issuing no TakeOff/Land call. -/
theorem C7_counterexample :
    (onSensor s0 ⟨0, 0, 98/10⟩ fdFlying).1.flightData.flying = true ∧
    s0.flightData.flying = false ∧
    toggleCount (onSensor s0 ⟨0, 0, 98/10⟩ fdFlying).2 = 0 := by
  refine ⟨?_, rfl, ?_⟩
  · simp [onSensor, gestureTrigger_gravity, fdFlying]
  · rw [toggleCount_onSensor]
    simp [gestureTrigger_gravity]

/-- C7 (amended): the flight-state value the renderer and dispatcher read is
refreshed from drone telemetry on every non-triggering accelerometer sample
and is left unchanged by triggering samples and by touch events; no handler
other than the telemetry refresh in `onSensor` changes it. -/
theorem C7_flightData_update :
    (∀ (s : AppState) (a : AccelSample) (fd : FlightData),
        (onSensor s a fd).1.flightData =
          if gestureTrigger a.z then s.flightData else fd) ∧
    (∀ (s : AppState) (t : TouchType) (X Y : ℚ),
        (onTouch s t X Y).1.flightData = s.flightData) := by
  constructor
  · intro s a fd
    by_cases h : gestureTrigger a.z
    · simp [onSensor, h, takeoffLand, resetCtrl]
    · simp [onSensor, h]
  · intro s t X Y
    unfold onTouch
    split <;> rfl

/-- C1 counterexample: the code has no debounce: two consecutive
trigger-eligible samples (`z = 40`, 20 ms apart at the configured sensor
period, hence well inside any one-second window) produce two flight-state
toggle calls, not one. -/
theorem C1_counterexample :
    toggleCount (runSensors s0 [(⟨0, 0, 40⟩, fdGround), (⟨0, 0, 40⟩, fdGround)]).2 = 2 := by
  simp [runSensors, toggleCount_append, toggleCount_onSensor, gestureTrigger_forty]

/-- C1 (amended): there is no debounce window: every trigger-eligible
accelerometer sample causes exactly one flight-state toggle call regardless
of its distance from the previous one, so a run of samples produces exactly
as many toggles as it contains trigger-eligible samples. -/
theorem C1_no_debounce (s : AppState) (events : List (AccelSample × FlightData)) :
    toggleCount (runSensors s events).2 =
      (events.filter fun e => gestureTrigger e.1.z).length := by
  induction events generalizing s with
  | nil => simp [runSensors, toggleCount]
  | cons e rest ih =>
    rw [runSensors]
    simp only [toggleCount_append, toggleCount_onSensor, List.filter_cons]
    by_cases h : gestureTrigger e.1.z
    · simp [h, ih]
      omega
    · simp [h, ih]

/-- C8: for every accelerometer vector, the roll and pitch angles are
bounded in absolute value by π/2 and the normalized roll and pitch outputs
are bounded in absolute value by 1, also when either hypotenuse is zero; in
this real-valued model the outputs are therefore always finite. -/
theorem C8_finite_tilt (x y z : ℝ) :
    |rollAngle x y z| < Real.pi / 2 ∧ |pitchAngle x y z| < Real.pi / 2 ∧
    |rollAngle x y z / (0.5 * Real.pi)| < 1 ∧
    |pitchAngle x y z / (0.5 * Real.pi)| < 1 :=
  ⟨abs_rollAngle_lt x y z, abs_pitchAngle_lt x y z,
    abs_div_halfPi_lt_one (abs_rollAngle_lt x y z),
    abs_div_halfPi_lt_one (abs_pitchAngle_lt x y z)⟩

/-- C3: on a non-triggering accelerometer sample, the normalized roll output
equals `atan(y / hypot(x, z)) / (π/2)`, the normalized pitch output equals
the sign-flipped symmetric formula `-atan(x / hypot(y, z)) / (π/2)`, a zero
hypotenuse yields a zero output, both outputs lie in the normalized range,
and the level-gravity sample `(0, 0, 9.8)` yields zero roll and pitch. -/
theorem C3_roll_pitch (s : AppState) (a : AccelSample) (fd : FlightData)
    (h : gestureTrigger a.z = false) :
    (Real.sqrt ((a.x : ℝ) * (a.x : ℝ) + (a.z : ℝ) * (a.z : ℝ)) ≠ 0 →
        (onSensor s a fd).1.velocity.x =
          Real.arctan ((a.y : ℝ) /
              Real.sqrt ((a.x : ℝ) * (a.x : ℝ) + (a.z : ℝ) * (a.z : ℝ))) /
            (0.5 * Real.pi)) ∧
    (Real.sqrt ((a.x : ℝ) * (a.x : ℝ) + (a.z : ℝ) * (a.z : ℝ)) = 0 →
        (onSensor s a fd).1.velocity.x = 0) ∧
    (Real.sqrt ((a.y : ℝ) * (a.y : ℝ) + (a.z : ℝ) * (a.z : ℝ)) ≠ 0 →
        (onSensor s a fd).1.velocity.y =
          -Real.arctan ((a.x : ℝ) /
              Real.sqrt ((a.y : ℝ) * (a.y : ℝ) + (a.z : ℝ) * (a.z : ℝ))) /
            (0.5 * Real.pi)) ∧
    (Real.sqrt ((a.y : ℝ) * (a.y : ℝ) + (a.z : ℝ) * (a.z : ℝ)) = 0 →
        (onSensor s a fd).1.velocity.y = 0) ∧
    |(onSensor s a fd).1.velocity.x| < 1 ∧
    |(onSensor s a fd).1.velocity.y| < 1 ∧
    ((onSensor s ⟨0, 0, 98/10⟩ fd).1.velocity.x = 0 ∧
      (onSensor s ⟨0, 0, 98/10⟩ fd).1.velocity.y = 0) := by
  obtain ⟨hx, hy⟩ := onSensor_velocity s a fd h
  obtain ⟨hx0, hy0⟩ := onSensor_velocity s ⟨0, 0, 98/10⟩ fd gestureTrigger_gravity
  refine ⟨fun hne => ?_, fun heq => ?_, fun hne => ?_, fun heq => ?_, ?_, ?_, ?_, ?_⟩
  · rw [hx]
    unfold rollAngle
    rw [if_pos hne]
  · rw [hx]
    unfold rollAngle
    rw [if_neg (not_not_intro heq), zero_div]
  · rw [hy]
    unfold pitchAngle
    rw [if_pos hne]
  · rw [hy]
    unfold pitchAngle
    rw [if_neg (not_not_intro heq), neg_zero, zero_div]
  · rw [hx]
    exact abs_div_halfPi_lt_one (abs_rollAngle_lt _ _ _)
  · rw [hy, neg_div]
    rw [abs_neg]
    exact abs_div_halfPi_lt_one (abs_pitchAngle_lt _ _ _)
  · rw [hx0]
    simp [rollAngle, zero_div, Real.arctan_zero]
  · rw [hy0]
    simp [pitchAngle, zero_div, Real.arctan_zero]

/-- C3 witness: at the level-gravity sample `(0, 0, 9.8)` the gesture does
not trigger and the handler computes zero roll and zero pitch. -/
theorem C3_witness :
    gestureTrigger (98/10) = false ∧
    (onSensor s0 ⟨0, 0, 98/10⟩ fdGround).1.velocity.x = 0 ∧
    (onSensor s0 ⟨0, 0, 98/10⟩ fdGround).1.velocity.y = 0 :=
  ⟨gestureTrigger_gravity,
    (C3_roll_pitch s0 ⟨0, 0, 98/10⟩ fdGround gestureTrigger_gravity).2.2.2.2.2.2⟩

/-- C4: for a viewport at least 2 px in each dimension and a touch within
bounds, the yaw and lateral-throttle commands lie in `[-1, 1]`, yaw is
monotone in X and lateral throttle is monotone (decreasing) in Y, the
handler installs exactly these values on a non-release event, and a
touch-release event resets both to exactly zero. -/
theorem C4_touch_mapping (w h : ℤ) (X Y : ℚ)
    (hw : 2 ≤ w) (hh : 2 ≤ h)
    (hX0 : 0 ≤ X) (hX1 : X ≤ (w : ℚ) - 1)
    (hY0 : 0 ≤ Y) (hY1 : Y ≤ (h : ℚ) - 1) :
    (-1 ≤ touchYaw w X ∧ touchYaw w X ≤ 1) ∧
    (-1 ≤ touchThrottle h Y ∧ touchThrottle h Y ≤ 1) ∧
    (∀ X2 : ℚ, X ≤ X2 → touchYaw w X ≤ touchYaw w X2) ∧
    (∀ Y2 : ℚ, Y ≤ Y2 → touchThrottle h Y2 ≤ touchThrottle h Y) ∧
    (∀ (s : AppState) (t : TouchType), t ≠ TouchType.typeEnd →
        s.widthPx = w → s.heightPx = h →
        (onTouch s t X Y).1.yawVelocity = (touchYaw w X : ℝ) ∧
        (onTouch s t X Y).1.velocity.z = (touchThrottle h Y : ℝ)) ∧
    (∀ s : AppState,
        (onTouch s TouchType.typeEnd X Y).1.yawVelocity = 0 ∧
        (onTouch s TouchType.typeEnd X Y).1.velocity.z = 0) := by
  have hwQ : (0 : ℚ) < (w : ℚ) - 1 := by
    have : (2 : ℚ) ≤ (w : ℚ) := by exact_mod_cast hw
    linarith
  have hhQ : (0 : ℚ) < (h : ℚ) - 1 := by
    have : (2 : ℚ) ≤ (h : ℚ) := by exact_mod_cast hh
    linarith
  refine ⟨⟨?_, ?_⟩, ⟨?_, ?_⟩, fun X2 hX2 => ?_, fun Y2 hY2 => ?_,
    fun s t ht hsw hsh => ?_, fun s => ?_⟩
  · unfold touchYaw
    have h2 : 0 ≤ 2 * X / ((w : ℚ) - 1) := div_nonneg (by linarith) hwQ.le
    linarith
  · unfold touchYaw
    have h2 : 2 * X / ((w : ℚ) - 1) ≤ 2 := by
      rw [div_le_iff₀ hwQ]
      linarith
    linarith
  · unfold touchThrottle
    have h2 : 2 * Y / ((h : ℚ) - 1) ≤ 2 := by
      rw [div_le_iff₀ hhQ]
      linarith
    linarith
  · unfold touchThrottle
    have h2 : 0 ≤ 2 * Y / ((h : ℚ) - 1) := div_nonneg (by linarith) hhQ.le
    linarith
  · unfold touchYaw
    have h2 : 2 * X / ((w : ℚ) - 1) ≤ 2 * X2 / ((w : ℚ) - 1) :=
      (div_le_div_iff_of_pos_right hwQ).mpr (by linarith)
    linarith
  · unfold touchThrottle
    have h2 : 2 * Y / ((h : ℚ) - 1) ≤ 2 * Y2 / ((h : ℚ) - 1) :=
      (div_le_div_iff_of_pos_right hhQ).mpr (by linarith)
    linarith
  · have hc : ¬(t = TouchType.typeEnd ∨ s.widthPx < 2 ∨ s.heightPx < 2) := by
      push_neg
      exact ⟨ht, by omega, by omega⟩
    rw [onTouch, if_neg hc, hsw, hsh]
    exact ⟨rfl, rfl⟩
  · rw [onTouch, if_pos (Or.inl rfl)]
    exact ⟨rfl, rfl⟩

/-- C4 witness: on a 100 by 100 viewport with a touch at `(50, 50)`, the
computed yaw and lateral throttle are `1/99` and `-1/99`, inside `[-1, 1]`. -/
theorem C4_witness :
    (2 ≤ (100 : ℤ)) ∧ ((0 : ℚ) ≤ 50) ∧ ((50 : ℚ) ≤ ((100 : ℤ) : ℚ) - 1) ∧
    (-1 ≤ touchYaw 100 50 ∧ touchYaw 100 50 ≤ 1) ∧
    (-1 ≤ touchThrottle 100 50 ∧ touchThrottle 100 50 ≤ 1) ∧
    touchYaw 100 50 = 1/99 ∧ touchThrottle 100 50 = -(1/99) := by
  have hmain := C4_touch_mapping 100 100 50 50 (by norm_num) (by norm_num)
    (by norm_num) (by norm_num) (by norm_num) (by norm_num)
  exact ⟨by norm_num, by norm_num, by norm_num, hmain.1, hmain.2.1,
    by norm_num [touchYaw], by norm_num [touchThrottle]⟩

/-- C9: touch events and tilt control are frame-disjoint: a touch event
leaves the roll and pitch components (`velocity.x`, `velocity.y`) unchanged,
and a non-triggering accelerometer event leaves the yaw and throttle
components (`yawVelocity`, `velocity.z`) unchanged. -/
theorem C9_disjoint_axes (s : AppState) (t : TouchType) (X Y : ℚ)
    (a : AccelSample) (fd : FlightData) (h : gestureTrigger a.z = false) :
    (onTouch s t X Y).1.velocity.x = s.velocity.x ∧
    (onTouch s t X Y).1.velocity.y = s.velocity.y ∧
    (onSensor s a fd).1.yawVelocity = s.yawVelocity ∧
    (onSensor s a fd).1.velocity.z = s.velocity.z := by
  refine ⟨?_, ?_, ?_, ?_⟩
  · rw [onTouch]
    split <;> rfl
  · rw [onTouch]
    split <;> rfl
  · simp [onSensor, h]
  · simp [onSensor, h]

/-- C9 witness: a concrete touch move and a concrete gravity-only sample on
the initial state leave the other gesture's axes untouched. -/
theorem C9_witness :
    gestureTrigger (98/10) = false ∧
    (onTouch s0 TouchType.typeMove 5 7).1.velocity.x = s0.velocity.x ∧
    (onTouch s0 TouchType.typeMove 5 7).1.velocity.y = s0.velocity.y ∧
    (onSensor s0 ⟨0, 0, 98/10⟩ fdGround).1.yawVelocity = s0.yawVelocity ∧
    (onSensor s0 ⟨0, 0, 98/10⟩ fdGround).1.velocity.z = s0.velocity.z :=
  ⟨gestureTrigger_gravity,
    C9_disjoint_axes s0 TouchType.typeMove 5 7 ⟨0, 0, 98/10⟩ fdGround
      gestureTrigger_gravity⟩

/-- C10: on a degenerate viewport (width or height below 2 px) every touch
event zeroes yaw and lateral throttle instead of computing the normalized
mapping, so the divisions by `width-1` and `height-1` are never reached. -/
theorem C10_degenerate_viewport (s : AppState)
    (h : s.widthPx < 2 ∨ s.heightPx < 2) (t : TouchType) (X Y : ℚ) :
    (onTouch s t X Y).1.yawVelocity = 0 ∧
    (onTouch s t X Y).1.velocity.z = 0 := by
  rw [onTouch, if_pos (Or.inr h)]
  exact ⟨rfl, rfl⟩

/-- C10 witness: on a 1 px wide viewport, a touch move at `(5, 7)` yields
zero yaw and zero lateral throttle. -/
theorem C10_witness :
    (sNarrow.widthPx < 2 ∨ sNarrow.heightPx < 2) ∧
    (onTouch sNarrow TouchType.typeMove 5 7).1.yawVelocity = 0 ∧
    (onTouch sNarrow TouchType.typeMove 5 7).1.velocity.z = 0 :=
  ⟨Or.inl (by norm_num [sNarrow]),
    C10_degenerate_viewport sNarrow (Or.inl (by norm_num [sNarrow]))
      TouchType.typeMove 5 7⟩

end Tellophone
